import Mathlib

/-!
Shallow embedding of the CloudSign integration client (`projects/cloudsign_api.py`)
and the orchestrating views (`projects/views.py`).

JSON response bodies are modelled by `JVal` (with `JVal.null` also playing the
role of Python `None`), the HTTP transport by explicit oracles indexed by the
number of calls made so far, and every modelled function returns its result
(`Except Err _`), the updated world, and a trace of observable events
(token-endpoint POSTs, authenticated API calls, logged warnings, submitted
payloads).  Python exceptions become `Err` values.
-/

namespace CloudSign

/-- JSON-like values as produced by `response.json()`.  `JVal.null` also stands
for Python `None` (a JSON `null` parses to `None`, and `dict.get` of a missing
key yields `None`). -/
inductive JVal where
  | null
  | bool (b : Bool)
  | num (n : Int)
  | str (s : String)
  | arr (xs : List JVal)
  | obj (fields : List (String × JVal))

/-- Python truthiness (`if value:`). -/
def truthy : JVal → Bool
  | .null => false
  | .bool b => b
  | .num n => n != 0
  | .str s => s != ""
  | .arr xs => !xs.isEmpty
  | .obj fs => !fs.isEmpty

/-- Numeric view used by Python arithmetic and `==` (`True == 1`, `False == 0`). -/
def pyToNum : JVal → Option Int
  | .bool b => some (if b then 1 else 0)
  | .num n => some n
  | _ => none

/-- Python `==` restricted to the comparisons the embedded code performs
(string/None/number fields compared against strings, `None` and `0`). -/
def pyEq (a b : JVal) : Bool :=
  match a, b with
  | .null, .null => true
  | .str s, .str t => s == t
  | _, _ =>
    match pyToNum a, pyToNum b with
    | some x, some y => x == y
    | _, _ => false

/-- `dict.get(k)`: the stored value, or `None` when the key is absent (or the
receiver is not a dict, in which case the source code would in fact raise; the
claims only exercise dict-shaped values here). -/
def JVal.get (v : JVal) (k : String) : JVal :=
  match v with
  | .obj fs => match fs.lookup k with | some x => x | none => .null
  | _ => .null

/-- `dict.get(k, d)` with an explicit default. -/
def JVal.getD (v : JVal) (k : String) (d : JVal) : JVal :=
  match v with
  | .obj fs => match fs.lookup k with | some x => x | none => d
  | _ => d

/-- `d[k]` (indexing): `KeyError` when missing, `TypeError` on a non-dict. -/
def JVal.index (v : JVal) (k : String) : Option JVal :=
  match v with
  | .obj fs => fs.lookup k
  | _ => none

/-- The list a `for` loop sees in `response.get('participants', [])` and
similar spots (non-lists are outside the shapes the claims exercise). -/
def asList : JVal → List JVal
  | .arr xs => xs
  | _ => []

/-- Python `str(...)` as used in f-strings interpolating response values. -/
def pyStr : JVal → String
  | .null => "None"
  | .bool b => if b then "True" else "False"
  | .num n => toString n
  | .str s => s
  | .arr _ => "[...]"
  | .obj _ => "{...}"

/-- Errors: the Python exceptions the embedded code can raise.  `exn` covers
the generic `raise Exception(...)` sites, with their (fixed part of the)
message. -/
inductive Err where
  | exn (msg : String)
  | httpErr (status : Nat) (text : String)
  | netErr
  | typeErr
  | nameErr (ident : String)
  | keyErr (key : String)
  | attrErr (ident : String)
  | valueErr (msg : String)
  | fieldError (ident : String)
deriving DecidableEq

/-- Outcome of one `requests` call: a transport failure
(`requests.exceptions.RequestException`) or a response with status and JSON body. -/
inductive HResp where
  | netErr
  | resp (status : Nat) (body : JVal)

/-- `{access_token, token_expires_at}` on the client instance.
`JVal.null` is Python `None`; the expiry, when set, is a timestamp. -/
structure ClientState where
  access_token : JVal
  token_expires_at : Option Int

/-- The client state plus the outside world: the current time and one oracle
per HTTP destination (the token endpoint, and the authenticated API),
each indexed by how many calls were already made. -/
structure World where
  st : ClientState
  now : Int
  tokenOracle : Nat → HResp
  tokenCalls : Nat
  reqOracle : Nat → HResp
  reqCalls : Nat

/-- Observable events: HTTP calls actually issued, warnings logged, form
payloads submitted, and (as instrumentation of the view's participant loop)
which participant position triggered an `add_participant` call. -/
inductive Event where
  | tokenPost
  | apiCall (method : String) (endpoint : String)
  | warning (msg : String)
  | payloadSubmitted (endpoint : String) (payload : List (String × JVal))
  | addParticipantCall (idx : Nat)

def isTokenPost : Event → Bool
  | .tokenPost => true
  | _ => false

def isApiCall : Event → Bool
  | .apiCall _ _ => true
  | _ => false

/-- Recognizes the HTTP call `send_document` issues: `POST {base}/documents/{id}`. -/
def isSendCall (docIdS : String) : Event → Bool
  | .apiCall m ep => m == "POST" && ep == ("/documents/" ++ docIdS)
  | _ => false

/-- The token-validity test on line 62:
`if self.access_token and self.token_expires_at and datetime.now() < self.token_expires_at`. -/
def tokenValid (st : ClientState) (now : Int) : Bool :=
  truthy st.access_token &&
    (match st.token_expires_at with
     | some e => decide (now < e)
     | none => false)

/-- One `requests.post` to the token endpoint. -/
def postToken (w : World) : HResp × World × List Event :=
  (w.tokenOracle w.tokenCalls, { w with tokenCalls := w.tokenCalls + 1 }, [.tokenPost])

/-- `response.raise_for_status()` raises for 4xx/5xx. -/
def isHttpError (status : Nat) : Bool :=
  400 ≤ status && status < 600

/-- `CloudSignAPIClient._get_access_token` (cloudsign_api.py lines 57-88).
Returns the cached token without any network call when it is valid; otherwise
POSTs once to `{base}/token`, stores `access_token` and
`expires_at = now + expires_in - 60` (default `expires_in` 3600), and raises
when the response carries no (truthy) access token.  Transport failures and
4xx/5xx are re-raised as a generic `Exception` by the handler on lines 86-88. -/
def getAccessToken (w : World) : Except Err JVal × World × List Event :=
  if tokenValid w.st w.now then
    (.ok w.st.access_token, w, [])
  else
    match postToken w with
    | (.netErr, w1, ev) =>
      (.error (.exn "Failed to obtain CloudSign access token"), w1, ev)
    | (.resp status body, w1, ev) =>
      if isHttpError status then
        (.error (.exn "Failed to obtain CloudSign access token"), w1, ev)
      else
        let tok := body.get "access_token"
        match pyToNum (body.getD "expires_in" (.num 3600)) with
        | none =>
          -- `timedelta(seconds=expires_in - 60)` on a non-number: TypeError,
          -- raised after `self.access_token` was already reassigned.
          (.error .typeErr,
           { w1 with st := { access_token := tok, token_expires_at := w1.st.token_expires_at } },
           ev)
        | some ei =>
          let st' : ClientState := ⟨tok, some (w1.now + ei - 60)⟩
          if truthy tok then
            (.ok tok, { w1 with st := st' }, ev)
          else
            (.error (.exn "Access token not found in response."),
             { w1 with st := st' }, ev)

/-- One `requests.request(method, url, ...)` inside `do_request`. -/
def doRequest (w : World) (method endpoint : String) : HResp × World × List Event :=
  (w.reqOracle w.reqCalls, { w with reqCalls := w.reqCalls + 1 },
   [.apiCall method endpoint])

/-- `CloudSignAPIClient._make_authenticated_request` (cloudsign_api.py lines
90-132).  Acquires a token, performs the call, and on a 401 invalidates the
token, re-fetches it, and retries the identical call exactly once; any other
4xx/5xx propagates without retry; 204 yields `None`. -/
def makeAuthenticatedRequest (w : World) (method endpoint : String) :
    Except Err JVal × World × List Event :=
  match getAccessToken w with
  | (.error e, w1, ev) => (.error e, w1, ev)
  | (.ok _, w1, ev0) =>
    match doRequest w1 method endpoint with
    | (.netErr, w2, ev1) => (.error .netErr, w2, ev0 ++ ev1)
    | (.resp s1 b1, w2, ev1) =>
      if isHttpError s1 then
        if s1 = 401 then
          match getAccessToken { w2 with st := ⟨.null, none⟩ } with
          | (.error e, w4, ev2) => (.error e, w4, ev0 ++ ev1 ++ ev2)
          | (.ok _, w4, ev2) =>
            match doRequest w4 method endpoint with
            | (.netErr, w5, ev3) => (.error .netErr, w5, ev0 ++ ev1 ++ ev2 ++ ev3)
            | (.resp s2 b2, w5, ev3) =>
              if isHttpError s2 then
                (.error (.httpErr s2 (pyStr b2)), w5, ev0 ++ ev1 ++ ev2 ++ ev3)
              else if s2 = 204 then
                (.ok .null, w5, ev0 ++ ev1 ++ ev2 ++ ev3)
              else
                (.ok b2, w5, ev0 ++ ev1 ++ ev2 ++ ev3)
        else
          (.error (.httpErr s1 (pyStr b1)), w2, ev0 ++ ev1)
      else if s1 = 204 then
        (.ok .null, w2, ev0 ++ ev1)
      else
        (.ok b1, w2, ev0 ++ ev1)

/-- `CloudSignAPIClient.create_document` (lines 134-146): `POST /documents`
with `{title, send_to_parties: False}`. -/
def createDocument (w : World) (_title : String) : Except Err JVal × World × List Event :=
  makeAuthenticatedRequest w "POST" "/documents"

/-- `CloudSignAPIClient.get_document` (lines 148-154). -/
def getDocument (w : World) (docIdS : String) : Except Err JVal × World × List Event :=
  makeAuthenticatedRequest w "GET" ("/documents/" ++ docIdS)

/-- `CloudSignAPIClient.send_document` (lines 156-164): `POST /documents/{id}`. -/
def sendDocument (w : World) (docIdS : String) : Except Err JVal × World × List Event :=
  makeAuthenticatedRequest w "POST" ("/documents/" ++ docIdS)

/-- `CloudSignAPIClient.update_document` (lines 333-340). -/
def updateDocument (w : World) (docIdS : String) (_updateData : List (String × JVal)) :
    Except Err JVal × World × List Event :=
  makeAuthenticatedRequest w "PUT" ("/documents/" ++ docIdS)

/-- The `data` dict built by `add_participant` (lines 177-192), together with
the warning logged when both `callback` and a truthy `recipient_id` are given
(in which case `del data['recipient_id']` drops the key). -/
def addParticipantPayload (email name tel : JVal) (callback : Bool)
    (recipient_id : JVal) : List (String × JVal) × List Event :=
  let data :=
    [("email", email), ("name", name)]
      ++ (if truthy tel then [("tel", tel)] else [])
      ++ (if callback then [("callback", JVal.bool true)] else [])
      ++ (if truthy recipient_id then [("recipient_id", recipient_id)] else [])
  if callback && truthy recipient_id then
    (data.filter (fun kv => kv.1 ≠ "recipient_id"),
     [.warning "Both callback and recipient_id were provided. recipient_id will be ignored for SMS authentication."])
  else
    (data, [])

/-- The scan on lines 196-201: the `id` of the first response participant whose
`email` and `name` both `==` the submitted ones (`JVal.null` when none matches,
mirroring the `None` initialisation and the `break` at the first match). -/
def findNewParticipantId (parts : List JVal) (email name : JVal) : JVal :=
  match parts with
  | [] => .null
  | p :: rest =>
    if pyEq (p.get "email") email && pyEq (p.get "name") name then
      p.get "id"
    else
      findNewParticipantId rest email name

/-- `CloudSignAPIClient.add_participant` (lines 166-206).  Submits the payload
to `POST /documents/{id}/participants`, then scans the response for the id of
the just-added participant; a falsy id is a fatal `Exception`. -/
def addParticipant (w : World) (docIdS : String) (email name tel : JVal)
    (callback : Bool) (recipient_id : JVal) : Except Err JVal × World × List Event :=
  let (payload, warnEv) := addParticipantPayload email name tel callback recipient_id
  let ep := "/documents/" ++ docIdS ++ "/participants"
  let ev0 := warnEv ++ [Event.payloadSubmitted ep payload]
  match makeAuthenticatedRequest w "POST" ep with
  | (.error e, w1, ev) => (.error e, w1, ev0 ++ ev)
  | (.ok body, w1, ev) =>
    let pid := findNewParticipantId (asList (body.getD "participants" (.arr []))) email name
    if truthy pid then
      (.ok pid, w1, ev0 ++ ev)
    else
      (.error (.exn "Could not find the ID of the newly added participant in CloudSign response."),
       w1, ev0 ++ ev)

/-- `os.path.basename` for POSIX paths: the part after the last `/`. -/
def basename (s : String) : String :=
  ⟨(s.data.reverse.takeWhile (fun c => c ≠ '/')).reverse⟩

/-- Index of the last `.` in a character list, if any. -/
def lastDotIdx : List Char → Option Nat
  | [] => none
  | c :: rest =>
    match lastDotIdx rest with
    | some i => some (i + 1)
    | none => if c = '.' then some 0 else none

/-- `os.path.splitext`: split at the last `.`, except that a name whose every
character before that dot is itself a dot (e.g. `.bashrc`, `..c`) has no
extension. -/
def splitext (s : String) : String × String :=
  let cs := s.data
  match lastDotIdx cs with
  | none => (s, "")
  | some i =>
    if (cs.take i).any (fun c => c ≠ '.') then
      (⟨cs.take i⟩, ⟨cs.drop i⟩)
    else
      (s, "")

/-- ASCII lowercasing of one character; `ext.lower() != '.pdf'` can only hold
or fail on ASCII letters, so this captures `str.lower` for the comparison the
code performs. -/
def asciiLowerChar (c : Char) : Char :=
  if c = 'A' then 'a' else if c = 'B' then 'b' else if c = 'C' then 'c'
  else if c = 'D' then 'd' else if c = 'E' then 'e' else if c = 'F' then 'f'
  else if c = 'G' then 'g' else if c = 'H' then 'h' else if c = 'I' then 'i'
  else if c = 'J' then 'j' else if c = 'K' then 'k' else if c = 'L' then 'l'
  else if c = 'M' then 'm' else if c = 'N' then 'n' else if c = 'O' then 'o'
  else if c = 'P' then 'p' else if c = 'Q' then 'q' else if c = 'R' then 'r'
  else if c = 'S' then 's' else if c = 'T' then 't' else if c = 'U' then 'u'
  else if c = 'V' then 'v' else if c = 'W' then 'w' else if c = 'X' then 'x'
  else if c = 'Y' then 'y' else if c = 'Z' then 'z' else c

/-- `str.lower()` as applied to the extension. -/
def lowerStr (s : String) : String :=
  ⟨s.data.map asciiLowerChar⟩

/-- The file name `add_file_to_document` submits (lines 300-308): the original
`file.name`, except that a missing or non-`.pdf` extension makes it
`basename-without-extension + ".pdf"`.  No other transformation is applied. -/
def fileNameForApi (original : String) : String :=
  let be := splitext (basename original)
  if be.2 = "" || lowerStr be.2 ≠ ".pdf" then be.1 ++ ".pdf" else original

/-- A file-like object as the client sees it (content bytes are irrelevant to
the claims). -/
structure PyFile where
  name : String

/-- `CloudSignAPIClient.add_file_to_document` (lines 289-331).  Uploads the
file as multipart `POST /documents/{id}/files` with the `name` field set to
`fileNameForApi file.name`; when the request succeeds, the debug log on line
328 references the undefined variable `sanitized_file_name`, so the function
raises `NameError` and its `return response_data` is unreachable. -/
def addFileToDocument (w : World) (docIdS : String) (file : PyFile) :
    Except Err JVal × World × List Event :=
  match makeAuthenticatedRequest w "POST" ("/documents/" ++ docIdS ++ "/files") with
  | (.error e, w1, ev) =>
    (.error e, w1,
     Event.payloadSubmitted ("/documents/" ++ docIdS ++ "/files")
       [("name", .str (fileNameForApi file.name))] :: ev)
  | (.ok _, w1, ev) =>
    (.error (.nameErr "sanitized_file_name"), w1,
     Event.payloadSubmitted ("/documents/" ++ docIdS ++ "/files")
       [("name", .str (fileNameForApi file.name))] :: ev)

/-- `CloudSignAPIClient.get_embedded_signing_url` (lines 379-395):
`POST /documents/{id}/participants/{pid}/signing_url`. -/
def getEmbeddedSigningUrl (w : World) (docIdS pidS : String) (_recipient_id : JVal) :
    Except Err JVal × World × List Event :=
  makeAuthenticatedRequest w "POST"
    ("/documents/" ++ docIdS ++ "/participants/" ++ pidS ++ "/signing_url")

/-- The entry the orchestrator keeps per embedded signer (the local dict built
on lines 253-257; only these three fields are ever read from it). -/
structure EmbSigner where
  name : JVal
  cloudsign_participant_id : JVal
  tel : JVal

/-- Step 2 of `create_embedded_signing_document` (lines 230-232): upload each
file in order; the first failure aborts. -/
def uploadFilesLoop (w : World) (docIdS : String) :
    List PyFile → Except Err Unit × World × List Event
  | [] => (.ok (), w, [])
  | f :: rest =>
    match addFileToDocument w docIdS f with
    | (.error e, w1, ev) => (.error e, w1, ev)
    | (.ok _, w1, ev) =>
      match uploadFilesLoop w1 docIdS rest with
      | (r, w2, ev') => (r, w2, ev ++ ev')

/-- Step 3 of `create_embedded_signing_document` (lines 239-270): add each
participant, requiring a truthy `tel` for embedded signers (which are added
with `callback=True`), others with their `recipient_id`; collects the embedded
signers for URL generation and every participant with its CloudSign id. -/
def addParticipantsLoop (w : World) (docIdS : String) :
    List JVal → Except Err (List EmbSigner × List JVal) × World × List Event
  | [] => (.ok ([], []), w, [])
  | pd :: rest =>
    match pd.index "name" with
    | none => (.error (.keyErr "name"), w, [])
    | some name =>
      match pd.index "email" with
      | none => (.error (.keyErr "email"), w, [])
      | some email =>
        let is_embedded_signer := pd.getD "is_embedded_signer" (.bool false)
        let tel := pd.get "tel"
        let recipient_id := pd.get "recipient_id"
        if truthy is_embedded_signer then
          if !truthy tel then
            (.error (.valueErr "Phone number (tel) is required for embedded signer."), w, [])
          else
            match addParticipant w docIdS email name tel true .null with
            | (.error e, w1, ev) => (.error e, w1, ev)
            | (.ok pid, w1, ev) =>
              match addParticipantsLoop w1 docIdS rest with
              | (.error e, w2, ev') => (.error e, w2, ev ++ ev')
              | (.ok (emb, allp), w2, ev') =>
                (.ok (⟨name, pid, tel⟩ :: emb,
                      JVal.obj [("name", name), ("email", email),
                                ("cloudsign_participant_id", pid),
                                ("is_embedded_signer", is_embedded_signer)] :: allp),
                 w2, ev ++ ev')
        else
          match addParticipant w docIdS email name .null false recipient_id with
          | (.error e, w1, ev) => (.error e, w1, ev)
          | (.ok pid, w1, ev) =>
            match addParticipantsLoop w1 docIdS rest with
            | (.error e, w2, ev') => (.error e, w2, ev ++ ev')
            | (.ok (emb, allp), w2, ev') =>
              (.ok (emb,
                    JVal.obj [("name", name), ("email", email),
                              ("cloudsign_participant_id", pid),
                              ("is_embedded_signer", is_embedded_signer)] :: allp),
               w2, ev ++ ev')

/-- Step 4 of `create_embedded_signing_document` (lines 272-285): one signing
URL per embedded signer, collected as `{name, url, expires_at}` dicts. -/
def signingUrlsLoop (w : World) (docIdS : String) :
    List EmbSigner → Except Err (List JVal) × World × List Event
  | [] => (.ok [], w, [])
  | s :: rest =>
    match getEmbeddedSigningUrl w docIdS (pyStr s.cloudsign_participant_id) .null with
    | (.error e, w1, ev) => (.error e, w1, ev)
    | (.ok info, w1, ev) =>
      match info.index "url" with
      | none => (.error (.keyErr "url"), w1, ev)
      | some url =>
        match info.index "expires_at" with
        | none => (.error (.keyErr "expires_at"), w1, ev)
        | some expires =>
          match signingUrlsLoop w1 docIdS rest with
          | (.error e, w2, ev') => (.error e, w2, ev ++ ev')
          | (.ok urls, w2, ev') =>
            (.ok (JVal.obj [("name", s.name), ("url", url), ("expires_at", expires)] :: urls),
             w2, ev ++ ev')

/-- `CloudSignAPIClient.create_embedded_signing_document` (lines 208-287):
create the document, upload every file, add every participant, and generate a
signing URL per embedded signer, returning
`(document_id, signing_urls_info, all_participants_with_cs_id)`. -/
def createEmbeddedSigningDocument (w : World) (title : String) (files : List PyFile)
    (participantsData : List JVal) :
    Except Err (JVal × List JVal × List JVal) × World × List Event :=
  match createDocument w title with
  | (.error e, w1, ev) => (.error e, w1, ev)
  | (.ok resp, w1, ev1) =>
    match resp.index "id" with
    | none => (.error (.keyErr "id"), w1, ev1)
    | some docId =>
      if files.isEmpty then
        (.error (.valueErr "No files provided for document creation."), w1, ev1)
      else
        match uploadFilesLoop w1 (pyStr docId) files with
        | (.error e, w2, ev2) => (.error e, w2, ev1 ++ ev2)
        | (.ok _, w2, ev2) =>
          match addParticipantsLoop w2 (pyStr docId) participantsData with
          | (.error e, w3, ev3) => (.error e, w3, ev1 ++ ev2 ++ ev3)
          | (.ok (emb, allp), w3, ev3) =>
            match signingUrlsLoop w3 (pyStr docId) emb with
            | (.error e, w4, ev4) => (.error e, w4, ev1 ++ ev2 ++ ev3 ++ ev4)
            | (.ok urls, w4, ev4) =>
              (.ok (docId, urls, allp), w4, ev1 ++ ev2 ++ ev3 ++ ev4)

/-- `JVal.null` test (`value is None`). -/
def isNull : JVal → Bool
  | .null => true
  | _ => false

def isObj : JVal → Bool
  | .obj _ => true
  | _ => false

/-- `needle` occurs at the start of `hay`. -/
def charsStartWith : List Char → List Char → Bool
  | [], _ => true
  | _ :: _, [] => false
  | a :: as, b :: bs => a = b && charsStartWith as bs

/-- Python's `needle in hay` on strings, over character lists. -/
def charsContain (needle : List Char) : List Char → Bool
  | [] => needle.isEmpty
  | c :: rest => charsStartWith needle (c :: rest) || charsContain needle rest

/-- A local `Participant` record (models.py lines 96-117) as the views read it:
`name`/`email` are non-null strings, the rest nullable. -/
structure LocalParticipant where
  name : String
  email : String
  tel : JVal
  recipient_id : JVal
  cloudsign_participant_id : JVal

/-- A local `ContractFile` record: the stored file's name. -/
structure LocalFile where
  file_name : String

/-- Python-dict association list: assignment overwrites an `==`-equal key. -/
def dictInsert (d : List (JVal × JVal)) (k v : JVal) : List (JVal × JVal) :=
  if d.any (fun kv => pyEq kv.1 k) then
    d.map (fun kv => if pyEq kv.1 k then (kv.1, v) else kv)
  else
    d ++ [(k, v)]

def dictLookup (d : List (JVal × JVal)) (k : JVal) : Option JVal :=
  (d.find? (fun kv => pyEq kv.1 k)).map (fun kv => kv.2)

/-- The map built on views.py lines 801-806: remote email → remote participant,
for remote participants with a truthy email. -/
def buildExistingParticipants (detail : JVal) : List (JVal × JVal) :=
  (asList (detail.get "participants")).foldl
    (fun acc csp =>
      if truthy (csp.get "email") then dictInsert acc (csp.get "email") csp else acc)
    []

/-- One iteration of the participant loop of `ProjectManageView.post`
(views.py lines 813-861) for the participant at position `i`: skip when a
CloudSign id is already stored; else adopt the id of an identically-emailed
remote participant; else call `add_participant` (recorded as
`Event.addParticipantCall i`) and store the returned id — in fact, since
`add_participant` returns a bare id and not a dict, via the `get_document`
fallback search, whose own failures are swallowed.  Returns the (possibly
updated) participant and whether an add call succeeded. -/
def viewParticipantBody (w : World) (docIdS sendMode : String)
    (existing : List (JVal × JVal)) (i : Nat) (p : LocalParticipant) :
    Except Err Unit × World × List Event × LocalParticipant × Bool :=
  if truthy p.cloudsign_participant_id then
    (.ok (), w, [], p, false)
  else
    match (if p.email != "" then dictLookup existing (.str p.email) else none) with
    | some cs =>
      (.ok (), w, [], { p with cloudsign_participant_id := cs.get "id" }, false)
    | none =>
      let callback := sendMode == "embedded_sms"
      let tel := if sendMode == "embedded_sms" then p.tel else .null
      let rid := if sendMode == "simple_auth" then p.recipient_id else .null
      match addParticipant w docIdS (.str p.email) (.str p.name) tel callback rid with
      | (.error e, w1, ev) =>
        -- lines 832-836: an HTTPError whose text flags a callback permission
        -- problem is converted, in embedded-SMS mode, to a clearer Exception
        let e' :=
          match e with
          | .httpErr s t =>
            if sendMode == "embedded_sms" && charsContain "forbidden to callback".data t.data then
              Err.exn "CloudSign team settings do not allow embedded signing (SMS auth)."
            else Err.httpErr s t
          | _ => e
        (.error e', w1, Event.addParticipantCall i :: ev, p, false)
      | (.ok presp, w1, ev) =>
        let ev := Event.addParticipantCall i :: ev
        if isObj presp && truthy (presp.get "id") then
          (.ok (), w1, ev, { p with cloudsign_participant_id := presp.get "id" }, true)
        else
          match getDocument w1 docIdS with
          | (.error _, w2, ev2) => (.ok (), w2, ev ++ ev2, p, true)
          | (.ok detail, w2, ev2) =>
            let candidates := asList (detail.get "participants")
            let m : Option JVal :=
              if sendMode == "embedded_sms" && truthy p.tel then
                candidates.find? (fun c => pyEq (c.get "tel") p.tel)
              else if sendMode == "simple_auth" && truthy p.recipient_id then
                candidates.find? (fun c => pyEq (c.get "recipient_id") p.recipient_id)
              else if p.email != "" then
                candidates.find? (fun c => pyEq (c.get "email") (.str p.email))
              else none
            match m with
            | some c =>
              if truthy (c.get "id") then
                (.ok (), w2, ev ++ ev2, { p with cloudsign_participant_id := c.get "id" }, true)
              else
                (.ok (), w2, ev ++ ev2, p, true)
            | none => (.ok (), w2, ev ++ ev2, p, true)

/-- The participant loop of `ProjectManageView.post` (views.py lines 812-861)
over the participants from position `i` on.  An exception aborts the loop; the
already-processed prefix keeps its in-place updates.  Also returns
`participants_to_add_count`. -/
def viewParticipantLoop (w : World) (docIdS sendMode : String)
    (existing : List (JVal × JVal)) (i : Nat) :
    List LocalParticipant →
      Except Err Unit × World × List Event × List LocalParticipant × Nat
  | [] => (.ok (), w, [], [], 0)
  | p :: rest =>
    match viewParticipantBody w docIdS sendMode existing i p with
    | (.error e, w1, ev, p', _) => (.error e, w1, ev, p' :: rest, 0)
    | (.ok _, w1, ev, p', added) =>
      match viewParticipantLoop w1 docIdS sendMode existing (i + 1) rest with
      | (r, w2, ev', ps', n) =>
        (r, w2, ev ++ ev', p' :: ps', (if added then 1 else 0) + n)

/-- What a view run reports to the user: a success or error message render,
or an exception that escapes the view entirely (a server error). -/
inductive ViewOutcome where
  | success
  | failure (msg : String)
  | crashed (e : Err)
deriving DecidableEq

/-- `DocumentSendView.post` (views.py lines 402-438): refuse when the project
has no document id; fetch the document and refuse ("already sent") when its
status is neither `None` nor (`==`) 0; otherwise send it.  Exceptions become
error messages. -/
def documentSendPost (w : World) (docId : JVal) : ViewOutcome × World × List Event :=
  if !truthy docId then
    (.failure "no-document-id", w, [])
  else
    let docIdS := pyStr docId
    match getDocument w docIdS with
    | (.error _, w1, ev) => (.failure "send-failed", w1, ev)
    | (.ok detail, w1, ev) =>
      let status := detail.get "status"
      if !isNull status && !pyEq status (.num 0) then
        (.failure "already-sent", w1, ev)
      else
        match sendDocument w1 docIdS with
        | (.error _, w2, ev2) => (.failure "send-failed", w2, ev ++ ev2)
        | (.ok _, w2, ev2) => (.success, w2, ev ++ ev2)

/-- A local `Project` with its related files and participants, as the manage
view reads them. -/
structure ProjectRec where
  title : String
  cloudsign_document_id : JVal
  files : List LocalFile
  participants : List LocalParticipant

/-- Steps 3-5 of the `save_and_send` branch of `ProjectManageView.post`
(views.py lines 799-897), once a document id `curS` is in hand: build the
existing-participants map (fetch failures logged and swallowed), run the
participant loop, fetch the document again for its remote file names, and —
since `add_file_to_document` accepts no `display_name` keyword (cloudsign_api.py
line 289) — fail with a TypeError as soon as any local file is missing remotely;
when all files already exist remotely, send the document.  Even a successful
send ends as a rendered error: line 897 `project.save(update_fields=
['send_method'])` raises ValueError (`Project` has no `send_method` field),
which the outer handler turns into the failure render — after the send HTTP
call was already issued. -/
def projectManageSendRest (w : World) (curS : String) (project : ProjectRec)
    (sendMode : String) : ViewOutcome × World × List Event × ProjectRec :=
  let t :=
    match getDocument w curS with
    | (.error _, w1, ev) =>
      (([] : List (JVal × JVal)), w1, ev ++ [Event.warning "existing-participants-fetch-failed"])
    | (.ok detail, w1, ev) => (buildExistingParticipants detail, w1, ev)
  match t with
  | (existing, w1, evA) =>
    match viewParticipantLoop w1 curS sendMode existing 0 project.participants with
    | (.error _, w2, evB, ps', _) =>
      (.failure "cloudsign-error", w2, evA ++ evB, { project with participants := ps' })
    | (.ok _, w2, evB, ps', _) =>
      let project := { project with participants := ps' }
      match getDocument w2 curS with
      | (.error _, w3, evC) =>
        (.failure "cloudsign-error", w3, evA ++ evB ++ evC, project)
      | (.ok detail2, w3, evC) =>
        let existingNames := (asList (detail2.get "files")).map (fun f => f.get "name")
        if project.files.any
            (fun lf => !(existingNames.any (fun n => pyEq n (.str lf.file_name)))) then
          (.failure "cloudsign-error", w3, evA ++ evB ++ evC, project)
        else
          match sendDocument w3 curS with
          | (.error _, w4, evD) =>
            (.failure "cloudsign-error", w4, evA ++ evB ++ evC ++ evD, project)
          | (.ok _, w4, evD) =>
            -- views.py 896-897: project.send_method = send_mode;
            -- project.save(update_fields=['send_method']) — Project has no
            -- send_method field, so save raises ValueError, caught by the
            -- outer except: the flow reports failure though the send happened
            (.failure "cloudsign-error", w4, evA ++ evB ++ evC ++ evD, project)

/-- Lines 755-897 of the `save_and_send` branch of `ProjectManageView.post`:
the continuation after the `participants.update` on line 753.  Requires at
least one file and one participant; creates the document when the project has
none; for an existing document, refuses ("already sent") when `get_document`
reports a status that is neither `None` nor 0 — a status-fetch failure is
merely logged — and otherwise updates the title; then proceeds with
participants, files and the send.  In the program as written this code is
unreachable: line 753 raises first (see `projectManageSend`). -/
def projectManageSendBody (w : World) (project : ProjectRec) (sendMode : String) :
    ViewOutcome × World × List Event × ProjectRec :=
  if project.files.isEmpty then
    (.failure "need-files", w, [], project)
  else if project.participants.isEmpty then
    (.failure "need-participants", w, [], project)
  else if !truthy project.cloudsign_document_id then
    match createDocument w project.title with
    | (.error _, w1, ev) => (.failure "cloudsign-error", w1, ev, project)
    | (.ok doc, w1, ev) =>
      match doc.index "id" with
      | none => (.failure "cloudsign-error", w1, ev, project)
      | some newId =>
        let project' := { project with cloudsign_document_id := newId }
        if !truthy newId then
          (.failure "no-document-id", w1, ev, project')
        else
          match projectManageSendRest w1 (pyStr newId) project' sendMode with
          | (r, w2, ev', p') => (r, w2, ev ++ ev', p')
  else
    let curS := pyStr project.cloudsign_document_id
    match getDocument w curS with
    | (.ok detail, w1, ev) =>
      let status := detail.get "status"
      if !isNull status && !pyEq status (.num 0) then
        (.failure "already-sent", w1, ev, project)
      else
        match updateDocument w1 curS [("title", .str project.title)] with
        | (.error _, w2, ev2) => (.failure "cloudsign-error", w2, ev ++ ev2, project)
        | (.ok _, w2, ev2) =>
          match projectManageSendRest w2 curS project sendMode with
          | (r, w3, ev3, p') => (r, w3, ev ++ ev2 ++ ev3, p')
    | (.error _, w1, ev) =>
      match updateDocument w1 curS [("title", .str project.title)] with
      | (.error _, w2, ev2) =>
        (.failure "cloudsign-error", w2,
         ev ++ [Event.warning "existing-status-fetch-failed"] ++ ev2, project)
      | (.ok _, w2, ev2) =>
        match projectManageSendRest w2 curS project sendMode with
        | (r, w3, ev3, p') =>
          (r, w3, ev ++ [Event.warning "existing-status-fetch-failed"] ++ ev2 ++ ev3, p')

/-- The `save_and_send` branch of `ProjectManageView.post` (views.py lines
751-897).  Line 753 runs first, on every `save_and_send` POST:
`project.participants.update(callback=(send_mode == 'embedded_sms'))` — but
the `Participant` model (models.py lines 96-117) has no `callback` field, so
Django raises `FieldDoesNotExist` here, outside the `try` that starts on line
765.  The request crashes before any check, any HTTP call, and before the
status guard of lines 779-789; `projectManageSendBody` never runs. -/
def projectManageSend (w : World) (project : ProjectRec) (_sendMode : String) :
    ViewOutcome × World × List Event × ProjectRec :=
  (.crashed (.fieldError "callback"), w, [], project)

/-! ## Shared lemmas -/

theorem getAccessToken_cacheValid (w : World) (h : tokenValid w.st w.now = true) :
    getAccessToken w = (.ok w.st.access_token, w, []) := by
  unfold getAccessToken
  simp [h]

theorem getAccessToken_fetchOk (w : World) (s : Nat) (tb : JVal) (k : Int)
    (hv : tokenValid w.st w.now = false)
    (ho : w.tokenOracle w.tokenCalls = .resp s tb)
    (hs : isHttpError s = false)
    (ht : truthy (tb.get "access_token") = true)
    (he : pyToNum (tb.getD "expires_in" (.num 3600)) = some k) :
    getAccessToken w =
      (.ok (tb.get "access_token"),
       { w with st := ⟨tb.get "access_token", some (w.now + k - 60)⟩,
                tokenCalls := w.tokenCalls + 1 },
       [Event.tokenPost]) := by
  unfold getAccessToken postToken
  simp [hv, ho, hs, he, ht]

theorem getAccessToken_fetchTrace (w : World) (hv : tokenValid w.st w.now = false) :
    (getAccessToken w).2.2 = [Event.tokenPost] ∧
      (getAccessToken w).2.1.tokenCalls = w.tokenCalls + 1 := by
  unfold getAccessToken postToken
  rcases ho : w.tokenOracle w.tokenCalls with _ | ⟨s, tb⟩
  · simp [hv, ho]
  · rcases hn : pyToNum (tb.getD "expires_in" (.num 3600)) with _ | k <;>
      by_cases hs : isHttpError s <;>
      by_cases ht : truthy (tb.get "access_token") <;>
      simp [hv, ho, hs, ht, hn]

theorem getAccessToken_events (w : World) :
    (getAccessToken w).2.2 = [] ∨ (getAccessToken w).2.2 = [Event.tokenPost] := by
  by_cases hv : tokenValid w.st w.now
  · left
    rw [getAccessToken_cacheValid w hv]
  · right
    exact (getAccessToken_fetchTrace w (by simpa using hv)).1

theorem gtok_mem (w' : World) (r : Except Err JVal) (w'' : World) (ev : List Event)
    (heq : getAccessToken w' = (r, w'', ev)) : ∀ x ∈ ev, x = Event.tokenPost := by
  intro x hx
  have h := getAccessToken_events w'
  rw [heq] at h
  rcases h with h | h <;> subst h <;> simp_all

theorem makeAuthenticatedRequest_events (w : World) (m ep : String) :
    ∀ e ∈ (makeAuthenticatedRequest w m ep).2.2,
      e = Event.tokenPost ∨ e = Event.apiCall m ep := by
  intro e he
  unfold makeAuthenticatedRequest doRequest at he
  split at he
  next e1 w1 ev1 heq1 =>
    exact Or.inl (gtok_mem _ _ _ _ heq1 e he)
  next v w1 ev0 heq1 =>
    split at he
    next w2 ev1 hr1 =>
      simp only [Prod.mk.injEq] at hr1
      obtain ⟨-, -, rfl⟩ := hr1
      simp only [List.mem_append, List.mem_singleton] at he
      rcases he with he | he
      · exact Or.inl (gtok_mem _ _ _ _ heq1 e he)
      · exact Or.inr he
    next s1 b1 w2 ev1 hr1 =>
      simp only [Prod.mk.injEq] at hr1
      obtain ⟨-, -, rfl⟩ := hr1
      split at he
      · split at he
        · split at he
          next e2 w4 ev2 heq2 =>
            simp only [List.mem_append, List.mem_singleton] at he
            rcases he with (he | he) | he
            · exact Or.inl (gtok_mem _ _ _ _ heq1 e he)
            · exact Or.inr he
            · exact Or.inl (gtok_mem _ _ _ _ heq2 e he)
          next v2 w4 ev2 heq2 =>
            split at he
            next w5 ev3 hr2 =>
              simp only [Prod.mk.injEq] at hr2
              obtain ⟨-, -, rfl⟩ := hr2
              simp only [List.mem_append, List.mem_singleton] at he
              rcases he with ((he | he) | he) | he
              · exact Or.inl (gtok_mem _ _ _ _ heq1 e he)
              · exact Or.inr he
              · exact Or.inl (gtok_mem _ _ _ _ heq2 e he)
              · exact Or.inr he
            next s2 b2 w5 ev3 hr2 =>
              simp only [Prod.mk.injEq] at hr2
              obtain ⟨-, -, rfl⟩ := hr2
              split at he <;>
                [skip; split at he] <;>
              · simp only [List.mem_append, List.mem_singleton] at he
                rcases he with ((he | he) | he) | he
                · exact Or.inl (gtok_mem _ _ _ _ heq1 e he)
                · exact Or.inr he
                · exact Or.inl (gtok_mem _ _ _ _ heq2 e he)
                · exact Or.inr he
        · simp only [List.mem_append, List.mem_singleton] at he
          rcases he with he | he
          · exact Or.inl (gtok_mem _ _ _ _ heq1 e he)
          · exact Or.inr he
      · split at he <;>
        · simp only [List.mem_append, List.mem_singleton] at he
          rcases he with he | he
          · exact Or.inl (gtok_mem _ _ _ _ heq1 e he)
          · exact Or.inr he
/-! ## Claim C6 -/

/-- C6: `_get_access_token` issues no network call when the cached token state
holds a (truthy) access token and an expiry strictly in the future; otherwise
it issues exactly one POST to the token endpoint and, on success, stores the
returned token with `expires_at = now + expires_in - 60`. -/
theorem getAccessToken_cache_policy (w : World) :
    (tokenValid w.st w.now = true →
       getAccessToken w = (.ok w.st.access_token, w, [])) ∧
    (tokenValid w.st w.now = false →
       (getAccessToken w).2.2 = [Event.tokenPost] ∧
       (getAccessToken w).2.1.tokenCalls = w.tokenCalls + 1 ∧
       ∀ s tb k, w.tokenOracle w.tokenCalls = .resp s tb →
         isHttpError s = false →
         truthy (tb.get "access_token") = true →
         pyToNum (tb.getD "expires_in" (.num 3600)) = some k →
         (getAccessToken w).1 = .ok (tb.get "access_token") ∧
         (getAccessToken w).2.1.st =
           ⟨tb.get "access_token", some (w.now + k - 60)⟩) := by
  constructor
  · intro hv
    exact getAccessToken_cacheValid w hv
  · intro hv
    refine ⟨(getAccessToken_fetchTrace w hv).1, (getAccessToken_fetchTrace w hv).2, ?_⟩
    intro s tb k ho hs ht he
    rw [getAccessToken_fetchOk w s tb k hv ho hs ht he]
    exact ⟨rfl, rfl⟩

def c6TokenBody : JVal := .obj [("access_token", .str "fresh"), ("expires_in", .num 3600)]

/-- A client whose cached token is valid at the current time. -/
def c6WorldA : World :=
  { st := ⟨.str "tok", some 100⟩, now := 0,
    tokenOracle := fun _ => .netErr, tokenCalls := 0,
    reqOracle := fun _ => .netErr, reqCalls := 0 }

/-- A client with no cached token whose token endpoint answers 200. -/
def c6WorldB : World :=
  { st := ⟨.null, none⟩, now := 0,
    tokenOracle := fun _ => .resp 200 c6TokenBody, tokenCalls := 0,
    reqOracle := fun _ => .netErr, reqCalls := 0 }

theorem getAccessToken_cache_policy_witness :
    getAccessToken c6WorldA = (.ok (JVal.str "tok"), c6WorldA, []) ∧
    (getAccessToken c6WorldB).2.2 = [Event.tokenPost] ∧
    (getAccessToken c6WorldB).1 = .ok (JVal.str "fresh") ∧
    (getAccessToken c6WorldB).2.1.st = ⟨JVal.str "fresh", some 3540⟩ := by
  refine ⟨(getAccessToken_cache_policy c6WorldA).1 rfl,
    ((getAccessToken_cache_policy c6WorldB).2 rfl).1, ?_, ?_⟩
  · exact (((getAccessToken_cache_policy c6WorldB).2 rfl).2.2
      200 c6TokenBody 3600 rfl rfl rfl rfl).1.trans rfl
  · exact (((getAccessToken_cache_policy c6WorldB).2 rfl).2.2
      200 c6TokenBody 3600 rfl rfl rfl rfl).2.trans rfl

/-! ## Claim C5 -/

/-- C5: for an authenticated request made with a valid cached token, a 401
first response makes the gateway invalidate the token, fetch a new one
(exactly one token POST), and retry the identical call exactly once, surfacing
the retry's successful result; a second 401 surfaces as the 401 HTTP error
(the code's rendering of an auth failure); any other 4xx/5xx first response
propagates with no retry and no token refresh. -/
theorem retry_on_401 (w : World) (m ep : String)
    (hv : tokenValid w.st w.now = true) :
    (∀ b1 s2 b2 tb k,
       w.reqOracle w.reqCalls = .resp 401 b1 →
       w.reqOracle (w.reqCalls + 1) = .resp s2 b2 →
       isHttpError s2 = false → s2 ≠ 204 →
       w.tokenOracle w.tokenCalls = .resp 200 tb →
       truthy (tb.get "access_token") = true →
       pyToNum (tb.getD "expires_in" (.num 3600)) = some k →
       (makeAuthenticatedRequest w m ep).1 = .ok b2 ∧
       (makeAuthenticatedRequest w m ep).2.2 =
         [Event.apiCall m ep, Event.tokenPost, Event.apiCall m ep] ∧
       (makeAuthenticatedRequest w m ep).2.1.st.access_token = tb.get "access_token") ∧
    (∀ b1 b2 tb k,
       w.reqOracle w.reqCalls = .resp 401 b1 →
       w.reqOracle (w.reqCalls + 1) = .resp 401 b2 →
       w.tokenOracle w.tokenCalls = .resp 200 tb →
       truthy (tb.get "access_token") = true →
       pyToNum (tb.getD "expires_in" (.num 3600)) = some k →
       (makeAuthenticatedRequest w m ep).1 = .error (.httpErr 401 (pyStr b2)) ∧
       (makeAuthenticatedRequest w m ep).2.2 =
         [Event.apiCall m ep, Event.tokenPost, Event.apiCall m ep]) ∧
    (∀ s1 b1,
       w.reqOracle w.reqCalls = .resp s1 b1 →
       isHttpError s1 = true → s1 ≠ 401 →
       (makeAuthenticatedRequest w m ep).1 = .error (.httpErr s1 (pyStr b1)) ∧
       (makeAuthenticatedRequest w m ep).2.2 = [Event.apiCall m ep]) := by
  have hcv := getAccessToken_cacheValid w hv
  refine ⟨?_, ?_, ?_⟩
  · intro b1 s2 b2 tb k h1 h2 hs2 h204 htk htt hte
    have hfetch := getAccessToken_fetchOk
      { st := (⟨.null, none⟩ : ClientState), now := w.now, tokenOracle := w.tokenOracle,
        tokenCalls := w.tokenCalls, reqOracle := w.reqOracle, reqCalls := w.reqCalls + 1 }
      200 tb k rfl htk rfl htt hte
    unfold makeAuthenticatedRequest doRequest
    rw [hcv]
    simp only [h1]
    norm_num [isHttpError]
    rw [hfetch]
    simp only [h2]
    have hs2' : ¬(400 ≤ s2 ∧ s2 < 600) := by
      simp [isHttpError] at hs2
      omega
    simp [isHttpError, hs2', h204]
  · intro b1 b2 tb k h1 h2 htk htt hte
    have hfetch := getAccessToken_fetchOk
      { st := (⟨.null, none⟩ : ClientState), now := w.now, tokenOracle := w.tokenOracle,
        tokenCalls := w.tokenCalls, reqOracle := w.reqOracle, reqCalls := w.reqCalls + 1 }
      200 tb k rfl htk rfl htt hte
    unfold makeAuthenticatedRequest doRequest
    rw [hcv]
    simp only [h1]
    norm_num [isHttpError]
    rw [hfetch]
    simp only [h2]
    simp [isHttpError]
  · intro s1 b1 h1 hs1 h401
    unfold makeAuthenticatedRequest doRequest
    rw [hcv]
    simp only [h1]
    simp [hs1, h401]

def c5TokenBody : JVal := .obj [("access_token", .str "t2"), ("expires_in", .num 3600)]

/-- Valid cached token; first API response 401, retry answered 200. -/
def c5World1 : World :=
  { st := ⟨.str "t1", some 100⟩, now := 0,
    tokenOracle := fun _ => .resp 200 c5TokenBody, tokenCalls := 0,
    reqOracle := fun i => if i = 0 then .resp 401 .null else .resp 200 (.str "payload"),
    reqCalls := 0 }

/-- Valid cached token; both API responses 401. -/
def c5World2 : World :=
  { st := ⟨.str "t1", some 100⟩, now := 0,
    tokenOracle := fun _ => .resp 200 c5TokenBody, tokenCalls := 0,
    reqOracle := fun _ => .resp 401 (.str "denied"), reqCalls := 0 }

/-- Valid cached token; first API response 500. -/
def c5World3 : World :=
  { st := ⟨.str "t1", some 100⟩, now := 0,
    tokenOracle := fun _ => .resp 200 c5TokenBody, tokenCalls := 0,
    reqOracle := fun _ => .resp 500 (.str "boom"), reqCalls := 0 }

theorem retry_on_401_witness :
    ((makeAuthenticatedRequest c5World1 "GET" "/documents/d1").1 = .ok (.str "payload") ∧
     (makeAuthenticatedRequest c5World1 "GET" "/documents/d1").2.2 =
       [Event.apiCall "GET" "/documents/d1", Event.tokenPost,
        Event.apiCall "GET" "/documents/d1"]) ∧
    ((makeAuthenticatedRequest c5World2 "GET" "/documents/d1").1 =
       .error (.httpErr 401 "denied")) ∧
    ((makeAuthenticatedRequest c5World3 "GET" "/documents/d1").1 =
       .error (.httpErr 500 "boom") ∧
     (makeAuthenticatedRequest c5World3 "GET" "/documents/d1").2.2 =
       [Event.apiCall "GET" "/documents/d1"]) := by
  have h1 := (retry_on_401 c5World1 "GET" "/documents/d1" rfl).1
    JVal.null 200 (.str "payload") c5TokenBody 3600 rfl rfl rfl (by decide) rfl rfl rfl
  have h2 := (retry_on_401 c5World2 "GET" "/documents/d1" rfl).2.1
    (.str "denied") (.str "denied") c5TokenBody 3600 rfl rfl rfl rfl rfl
  have h3 := (retry_on_401 c5World3 "GET" "/documents/d1" rfl).2.2
    500 (.str "boom") rfl rfl (by decide)
  exact ⟨⟨h1.1, h1.2.1⟩, h2.1.trans rfl, h3.1, h3.2⟩

/-! ## Claim C2 -/

/-- C2: whenever the upload request of `add_file_to_document` succeeds, the
function raises `NameError` (undefined `sanitized_file_name` in the debug log
on line 328) before returning; its `return` is unreachable, so no call ever
produces an `ok` result. -/
theorem addFileToDocument_always_raises (w : World) (docIdS : String) (f : PyFile) :
    (∀ r, (makeAuthenticatedRequest w "POST" ("/documents/" ++ docIdS ++ "/files")).1 = .ok r →
       (addFileToDocument w docIdS f).1 = .error (.nameErr "sanitized_file_name")) ∧
    (∀ x, (addFileToDocument w docIdS f).1 ≠ .ok x) := by
  rcases hm : makeAuthenticatedRequest w "POST" ("/documents/" ++ docIdS ++ "/files")
    with ⟨r, w1, ev⟩
  constructor
  · intro r' hr
    simp only at hr
    subst hr
    simp only [addFileToDocument, hm]
  · intro x
    simp only [addFileToDocument, hm]
    cases r <;> simp

def c2World : World :=
  { st := ⟨.str "tok", some 100⟩, now := 0,
    tokenOracle := fun _ => .netErr, tokenCalls := 0,
    reqOracle := fun _ => .resp 200 (.obj [("id", .str "f1")]), reqCalls := 0 }

theorem addFileToDocument_always_raises_witness :
    (makeAuthenticatedRequest c2World "POST" "/documents/doc1/files").1 =
      .ok (.obj [("id", .str "f1")]) ∧
    (addFileToDocument c2World "doc1" ⟨"a.pdf"⟩).1 = .error (.nameErr "sanitized_file_name") := by
  exact ⟨rfl,
    (addFileToDocument_always_raises c2World "doc1" ⟨"a.pdf"⟩).1 (.obj [("id", .str "f1")]) rfl⟩

/-! ## Claim C10 -/

/-- A stale cached token; the token endpoint answers 200 with a body that has
no `access_token` and carries `expires_in = 30`. -/
def c10World : World :=
  { st := ⟨.str "old", some 500⟩, now := 1000,
    tokenOracle := fun _ => .resp 200 (.obj [("expires_in", .num 30)]), tokenCalls := 0,
    reqOracle := fun _ => .netErr, reqCalls := 0 }

/-- C10 counterexample: with `expires_in = 30` in the token-less 200 response,
`token_expires_at` is set to `now + 30 - 60 = 970 < now = 1000` — a timestamp
in the past, not the future the claim asserts (the state is still mutated). -/
theorem getAccessToken_mutation_counterexample :
    (getAccessToken c10World).1 = .error (.exn "Access token not found in response.") ∧
    (getAccessToken c10World).2.1.st.access_token = .null ∧
    (getAccessToken c10World).2.1.st.token_expires_at = some 970 ∧
    c10World.now = 1000 ∧ ¬((1000 : Int) < 970) := by
  refine ⟨rfl, rfl, rfl, rfl, by norm_num⟩

/-- C10 amended: when the token endpoint answers 2xx with no `access_token`,
`_get_access_token` raises only after setting `access_token` to `None` and
`token_expires_at` to `now + expires_in - 60` (a future timestamp whenever
`expires_in > 60`, in particular with the default 3600). -/
theorem getAccessToken_missing_token_mutates (w : World) (s : Nat) (tb : JVal) (k : Int)
    (hv : tokenValid w.st w.now = false)
    (ho : w.tokenOracle w.tokenCalls = .resp s tb)
    (hs : isHttpError s = false)
    (ht : tb.get "access_token" = .null)
    (he : pyToNum (tb.getD "expires_in" (.num 3600)) = some k) :
    (getAccessToken w).1 = .error (.exn "Access token not found in response.") ∧
    (getAccessToken w).2.1.st = ⟨.null, some (w.now + k - 60)⟩ ∧
    (60 < k → w.now < w.now + k - 60) := by
  unfold getAccessToken postToken
  refine ⟨?_, ?_, by omega⟩ <;> simp [hv, ho, hs, he, ht, truthy]

theorem getAccessToken_missing_token_mutates_witness :
    (getAccessToken c10World).1 = .error (.exn "Access token not found in response.") ∧
    (getAccessToken c10World).2.1.st = ⟨.null, some 970⟩ := by
  have h := getAccessToken_missing_token_mutates c10World 200
    (.obj [("expires_in", .num 30)]) 30 rfl rfl rfl rfl rfl
  exact ⟨h.1, h.2.1.trans rfl⟩

/-! ## Claim C1 -/

/-- Successful remote responses for the end-to-end embedded-signing scenario. -/
def e2eTokenBody : JVal := .obj [("access_token", .str "tok"), ("expires_in", .num 3600)]

def e2eReqOracle : Nat → HResp
  | 0 => .resp 200 (.obj [("id", .str "doc1")])
  | 1 => .resp 200 (.obj [("id", .str "file1")])
  | _ => .resp 200 (.obj [("participants",
      .arr [.obj [("id", .str "p1"), ("email", .str "s1@example.com"),
                  ("name", .str "Signer One")]])])

def e2eWorld : World :=
  { st := ⟨.null, none⟩, now := 0,
    tokenOracle := fun _ => .resp 200 e2eTokenBody, tokenCalls := 0,
    reqOracle := e2eReqOracle, reqCalls := 0 }

def e2eParticipants : List JVal :=
  [.obj [("name", .str "Signer One"), ("email", .str "s1@example.com"),
         ("tel", .str "09000000000"), ("is_embedded_signer", .bool true)]]

/-- C1 (evaluation at the claim's scenario): with title "Contract A", one PDF
file and one embedded signer with a telephone number, and every remote call
answering successfully, `create_embedded_signing_document` does not return the
claimed triple: it raises `NameError` inside `add_file_to_document` right
after the file upload, as the trace shows (document created, file uploaded,
then abort — no participant or signing-url step is ever reached). -/
theorem create_embedded_signing_scenario_raises :
    (createEmbeddedSigningDocument e2eWorld "Contract A" [⟨"contract.pdf"⟩] e2eParticipants).1
        = .error (.nameErr "sanitized_file_name") ∧
    (createEmbeddedSigningDocument e2eWorld "Contract A" [⟨"contract.pdf"⟩] e2eParticipants).2.2
        = [Event.tokenPost, Event.apiCall "POST" "/documents",
           Event.payloadSubmitted "/documents/doc1/files" [("name", .str "contract.pdf")],
           Event.apiCall "POST" "/documents/doc1/files"] := by
  exact ⟨rfl, rfl⟩

/-! ## Claim C3 -/

/-- `suffix` is a suffix of `s` (list-level, kernel-friendly). -/
def strEndsWith (s suffix : String) : Bool :=
  charsStartWith suffix.data.reverse s.data.reverse

/-- Modelled from the spec: a sanitized-name character is ASCII from
[A-Za-z0-9.-_]. -/
def specAllowedChar (c : Char) : Bool :=
  ('A' ≤ c && c ≤ 'Z') || ('a' ≤ c && c ≤ 'z') || ('0' ≤ c && c ≤ '9') ||
    c = '.' || c = '-' || c = '_'

/-- Modelled from the spec: pure ASCII from the allowed set and ending in
`.pdf`. -/
def specSanitizedName (s : String) : Bool :=
  s.data.all specAllowedChar && strEndsWith s ".pdf"

def c3World : World :=
  { st := ⟨.str "tok", some 100⟩, now := 0,
    tokenOracle := fun _ => .netErr, tokenCalls := 0,
    reqOracle := fun _ => .resp 200 (.obj [("id", .str "f1")]), reqCalls := 0 }

/-- C3 (evaluation at failing inputs): the name `add_file_to_document` submits
for a file named "契約書" is "契約書.pdf" — not sanitized to the ASCII set the
spec requires — and a file named "doc.PDF" is submitted as "doc.PDF", which
does not end in ".pdf"; no stripping or generic fallback exists in the code. -/
theorem addFileToDocument_submits_unsanitized_name :
    fileNameForApi "契約書" = "契約書.pdf" ∧
    specSanitizedName (fileNameForApi "契約書") = false ∧
    (addFileToDocument c3World "doc1" ⟨"契約書"⟩).2.2.head? =
      some (Event.payloadSubmitted "/documents/doc1/files"
        [("name", .str "契約書.pdf")]) ∧
    fileNameForApi "doc.PDF" = "doc.PDF" ∧
    strEndsWith (fileNameForApi "doc.PDF") ".pdf" = false := by
  refine ⟨rfl, by decide, rfl, rfl, by decide⟩

/-! ## Claim C8 -/

/-- C8 counterexample: with `callback=True` and the non-null but empty-string
`recipient_id`, the payload omits `recipient_id` (it is never added, being
falsy) but no warning is logged, contrary to the claim. -/
theorem addParticipant_warning_counterexample :
    (JVal.str "" = JVal.null → False) ∧
    (addParticipantPayload (.str "x@example.com") (.str "X") .null true (.str "")).2 = [] ∧
    (addParticipantPayload (.str "x@example.com") (.str "X") .null true
      (.str "")).1.lookup "recipient_id" = none := by
  refine ⟨(fun h => nomatch h), rfl, rfl⟩

/-- C8 amended: with `callback=true` the submitted payload always omits
`recipient_id`; the warning is logged exactly when `recipient_id` is truthy
(non-empty), so a non-null but empty `recipient_id` is dropped silently. -/
theorem addParticipant_callback_wins (email name tel rid : JVal) :
    (addParticipantPayload email name tel true rid).1.lookup "recipient_id" = none ∧
    ((addParticipantPayload email name tel true rid).2 ≠ [] ↔ truthy rid = true) := by
  by_cases htel : truthy tel <;> by_cases hrid : truthy rid <;>
    simp [addParticipantPayload, htel, hrid, List.lookup, List.filter]

/-! ## Claim C9 -/

theorem findNewParticipantId_nomatch (ps : List JVal) (email name : JVal)
    (h : ∀ p ∈ ps, (pyEq (p.get "email") email && pyEq (p.get "name") name) = false) :
    findNewParticipantId ps email name = .null := by
  induction ps with
  | nil => rfl
  | cons p rest ih =>
    unfold findNewParticipantId
    rw [h p (List.mem_cons_self p rest)]
    simp only [Bool.false_eq_true, if_false]
    exact ih (fun q hq => h q (List.mem_cons_of_mem p hq))

theorem findNewParticipantId_first (pre : List JVal) (p : JVal) (post : List JVal)
    (email name : JVal)
    (hpre : ∀ q ∈ pre, (pyEq (q.get "email") email && pyEq (q.get "name") name) = false)
    (hp : (pyEq (p.get "email") email && pyEq (p.get "name") name) = true) :
    findNewParticipantId (pre ++ p :: post) email name = p.get "id" := by
  induction pre with
  | nil =>
    unfold findNewParticipantId
    simp [hp]
  | cons q rest ih =>
    unfold findNewParticipantId
    simp only [List.cons_append]
    rw [hpre q (List.mem_cons_self q rest)]
    simp only [Bool.false_eq_true, if_false]
    exact ih (fun r hr => hpre r (List.mem_cons_of_mem q hr))

/-- C9: `add_participant` scans the response's participants for one whose
`email` and `name` both equal the submitted ones: when none matches, it raises
a fatal `Exception` (the code's rendering of a protocol error) instead of
returning; when the first match carries a truthy `id`, that id is returned. -/
theorem addParticipant_returns_matched_id (w : World) (docIdS : String)
    (email name tel : JVal) (callback : Bool) (rid : JVal) (body : JVal) (ps : List JVal)
    (hok : (makeAuthenticatedRequest w "POST"
      ("/documents/" ++ docIdS ++ "/participants")).1 = .ok body)
    (hps : body.getD "participants" (.arr []) = .arr ps) :
    ((∀ p ∈ ps, (pyEq (p.get "email") email && pyEq (p.get "name") name) = false) →
       (addParticipant w docIdS email name tel callback rid).1 =
         .error (.exn "Could not find the ID of the newly added participant in CloudSign response.")) ∧
    (∀ pre p post, ps = pre ++ p :: post →
       (∀ q ∈ pre, (pyEq (q.get "email") email && pyEq (q.get "name") name) = false) →
       (pyEq (p.get "email") email && pyEq (p.get "name") name) = true →
       truthy (p.get "id") = true →
       (addParticipant w docIdS email name tel callback rid).1 = .ok (p.get "id")) := by
  rcases hm : makeAuthenticatedRequest w "POST" ("/documents/" ++ docIdS ++ "/participants")
    with ⟨r, w1, ev⟩
  rw [hm] at hok
  obtain rfl : r = .ok body := hok
  constructor
  · intro hno
    simp only [addParticipant, hm, hps]
    rw [show asList (JVal.arr ps) = ps from rfl,
      findNewParticipantId_nomatch ps email name hno]
    rfl
  · intro pre p post hsplit hpre hp hid
    subst hsplit
    simp only [addParticipant, hm, hps]
    rw [show asList (JVal.arr (pre ++ p :: post)) = pre ++ p :: post from rfl,
      findNewParticipantId_first pre p post email name hpre hp, hid]
    rfl

def c9Body : JVal := .obj [("participants",
  .arr [.obj [("id", .str "p0"), ("email", .str "other@example.com"), ("name", .str "Other")],
        .obj [("id", .str "p7"), ("email", .str "a@example.com"), ("name", .str "Alice")]])]

def c9World : World :=
  { st := ⟨.str "tok", some 100⟩, now := 0,
    tokenOracle := fun _ => .netErr, tokenCalls := 0,
    reqOracle := fun _ => .resp 200 c9Body, reqCalls := 0 }

def c9BodyNone : JVal := .obj [("participants",
  .arr [.obj [("id", .str "p0"), ("email", .str "other@example.com"), ("name", .str "Other")]])]

def c9WorldNone : World :=
  { st := ⟨.str "tok", some 100⟩, now := 0,
    tokenOracle := fun _ => .netErr, tokenCalls := 0,
    reqOracle := fun _ => .resp 200 c9BodyNone, reqCalls := 0 }

theorem addParticipant_returns_matched_id_witness :
    (addParticipant c9World "d1" (.str "a@example.com") (.str "Alice") .null false .null).1 =
      .ok (.str "p7") ∧
    (addParticipant c9WorldNone "d1" (.str "a@example.com") (.str "Alice") .null false .null).1 =
      .error (.exn "Could not find the ID of the newly added participant in CloudSign response.") := by
  constructor
  · have h := (addParticipant_returns_matched_id c9World "d1" (.str "a@example.com")
      (.str "Alice") .null false .null c9Body
      [.obj [("id", .str "p0"), ("email", .str "other@example.com"), ("name", .str "Other")],
       .obj [("id", .str "p7"), ("email", .str "a@example.com"), ("name", .str "Alice")]]
      rfl rfl).2
      [.obj [("id", .str "p0"), ("email", .str "other@example.com"), ("name", .str "Other")]]
      (.obj [("id", .str "p7"), ("email", .str "a@example.com"), ("name", .str "Alice")])
      [] rfl (by intro q hq; fin_cases hq; rfl) rfl rfl
    exact h.trans rfl
  · exact (addParticipant_returns_matched_id c9WorldNone "d1" (.str "a@example.com")
      (.str "Alice") .null false .null c9BodyNone
      [.obj [("id", .str "p0"), ("email", .str "other@example.com"), ("name", .str "Other")]]
      rfl rfl).1 (by intro q hq; fin_cases hq; rfl)


/-! ## Claim C7 -/

theorem getDocument_no_sendCall (w : World) (docIdS s : String) :
    ∀ e ∈ (getDocument w docIdS).2.2, isSendCall s e = false := by
  intro e he
  rcases makeAuthenticatedRequest_events w "GET" ("/documents/" ++ docIdS) e he with h | h <;>
    subst h <;> rfl

/-- C7 (code bug evidence): the `DocumentSendView` flow implements the guard
as claimed — a non-draft status from the preceding `get_document` surfaces the
already-sent error and no `send_document` HTTP call (`POST /documents/{id}`)
appears in its trace.  The claim's other cited flow, `ProjectManageView`'s
save-and-send, instead crashes with `FieldDoesNotExist` at views.py line 753
on every request, issuing no HTTP call at all — so no `get_document` ever
precedes anything there; its status guard (lines 779-789, embedded as part of
`projectManageSendBody`) would behave exactly as claimed but is unreachable. -/
theorem send_guard_blocks_nondraft (w : World) (docId : JVal) (detail : JVal)
    (project : ProjectRec) (sendMode : String)
    (hok : (getDocument w (pyStr docId)).1 = .ok detail)
    (hnn : isNull (detail.get "status") = false)
    (hnz : pyEq (detail.get "status") (.num 0) = false) :
    (truthy docId = true →
       (documentSendPost w docId).1 = .failure "already-sent" ∧
       ∀ e ∈ (documentSendPost w docId).2.2, isSendCall (pyStr docId) e = false) ∧
    (∀ (w2 : World) (project2 : ProjectRec) (sendMode2 : String),
       projectManageSend w2 project2 sendMode2 =
         (.crashed (.fieldError "callback"), w2, [], project2)) ∧
    (project.cloudsign_document_id = docId → truthy docId = true →
       project.files.isEmpty = false → project.participants.isEmpty = false →
       (projectManageSendBody w project sendMode).1 = .failure "already-sent" ∧
       ∀ e ∈ (projectManageSendBody w project sendMode).2.2.1,
         isSendCall (pyStr docId) e = false) := by
  rcases hg : getDocument w (pyStr docId) with ⟨r, w1, ev⟩
  rw [hg] at hok
  obtain rfl : r = .ok detail := hok
  have hmem : ∀ e ∈ ev, isSendCall (pyStr docId) e = false := by
    intro e he
    have := getDocument_no_sendCall w (pyStr docId) (pyStr docId) e
    rw [hg] at this
    exact this he
  refine ⟨?_, (fun _ _ _ => rfl), ?_⟩
  · intro htr
    have : documentSendPost w docId = (.failure "already-sent", w1, ev) := by
      unfold documentSendPost
      rw [htr]
      simp only [Bool.not_true, Bool.false_eq_true, if_false, hg]
      simp [hnn, hnz]
    rw [this]
    exact ⟨rfl, hmem⟩
  · intro hdoc htr hfiles hparts
    have : projectManageSendBody w project sendMode
        = (.failure "already-sent", w1, ev, project) := by
      unfold projectManageSendBody
      rw [hfiles, hparts, hdoc, htr]
      simp only [Bool.not_true, Bool.false_eq_true, if_false, hdoc, hg]
      simp [hnn, hnz]
    rw [this]
    exact ⟨rfl, hmem⟩

def c7Detail : JVal := .obj [("status", .num 1), ("participants", .arr []), ("files", .arr [])]

def c7World : World :=
  { st := ⟨.str "tok", some 100⟩, now := 0,
    tokenOracle := fun _ => .netErr, tokenCalls := 0,
    reqOracle := fun _ => .resp 200 c7Detail, reqCalls := 0 }

def c7Project : ProjectRec :=
  { title := "T", cloudsign_document_id := .str "d9",
    files := [⟨"a.pdf"⟩],
    participants := [⟨"Alice", "a@example.com", .null, .null, .null⟩] }

theorem send_guard_blocks_nondraft_witness :
    (documentSendPost c7World (.str "d9")).1 = .failure "already-sent" ∧
    (projectManageSend c7World c7Project "normal").1 = .crashed (.fieldError "callback") ∧
    (projectManageSendBody c7World c7Project "normal").1 = .failure "already-sent" := by
  have h := send_guard_blocks_nondraft c7World (.str "d9") c7Detail c7Project "normal"
    rfl rfl rfl
  refine ⟨(h.1 rfl).1, ?_, (h.2.2 rfl rfl rfl rfl).1⟩
  rw [h.2.1 c7World c7Project "normal"]


/-! ## Claim C4 -/

/-- Positions recorded by `Event.addParticipantCall` in a trace. -/
def addCallIdxs (tr : List Event) : List Nat :=
  tr.filterMap (fun e => match e with | .addParticipantCall k => some k | _ => none)

theorem addCallIdxs_append (a b : List Event) :
    addCallIdxs (a ++ b) = addCallIdxs a ++ addCallIdxs b := by
  simp [addCallIdxs]

theorem addCallIdxs_cons_call (i : Nat) (tr : List Event) :
    addCallIdxs (Event.addParticipantCall i :: tr) = i :: addCallIdxs tr := rfl

theorem mar_addCallIdxs (w : World) (m ep : String) :
    addCallIdxs (makeAuthenticatedRequest w m ep).2.2 = [] := by
  rw [addCallIdxs, List.filterMap_eq_nil_iff]
  intro e he
  rcases makeAuthenticatedRequest_events w m ep e he with h | h <;> subst h <;> rfl

theorem addParticipant_addCallIdxs (w : World) (docIdS : String)
    (email name tel : JVal) (callback : Bool) (rid : JVal) :
    addCallIdxs (addParticipant w docIdS email name tel callback rid).2.2 = [] := by
  rcases hp : addParticipantPayload email name tel callback rid with ⟨payload, warnEv⟩
  have hw : addCallIdxs warnEv = [] := by
    have h2 : warnEv = (addParticipantPayload email name tel callback rid).2 := by rw [hp]
    rw [h2]
    unfold addParticipantPayload
    by_cases hc : (callback && truthy rid) = true <;> simp [hc, addCallIdxs]
  rcases hm : makeAuthenticatedRequest w "POST" ("/documents/" ++ docIdS ++ "/participants")
    with ⟨r, w1, ev⟩
  have hmar := mar_addCallIdxs w "POST" ("/documents/" ++ docIdS ++ "/participants")
  rw [hm] at hmar
  simp only at hmar
  cases r with
  | error e =>
    simp only [addParticipant, hp, hm]
    rw [addCallIdxs_append, addCallIdxs_append, hw, hmar]
    rfl
  | ok body =>
    simp only [addParticipant, hp, hm]
    split <;>
    · rw [addCallIdxs_append, addCallIdxs_append, hw, hmar]
      rfl

theorem getDocument_addCallIdxs (w : World) (docIdS : String) :
    addCallIdxs (getDocument w docIdS).2.2 = [] :=
  mar_addCallIdxs w "GET" ("/documents/" ++ docIdS)

theorem viewParticipantBody_skip (w : World) (docIdS sendMode : String)
    (existing : List (JVal × JVal)) (i : Nat) (p : LocalParticipant)
    (htr : truthy p.cloudsign_participant_id = true) :
    viewParticipantBody w docIdS sendMode existing i p = (.ok (), w, [], p, false) := by
  unfold viewParticipantBody
  simp [htr]

theorem viewParticipantBody_calls (w : World) (docIdS sendMode : String)
    (existing : List (JVal × JVal)) (i : Nat) (p : LocalParticipant) :
    addCallIdxs (viewParticipantBody w docIdS sendMode existing i p).2.2.1 = [] ∨
    addCallIdxs (viewParticipantBody w docIdS sendMode existing i p).2.2.1 = [i] := by
  unfold viewParticipantBody
  by_cases htr : truthy p.cloudsign_participant_id
  · left
    simp [htr, addCallIdxs]
  · simp only [htr, Bool.false_eq_true, if_false]
    rcases hl : (if p.email != "" then dictLookup existing (.str p.email) else none)
      with _ | cs
    · rcases ha : addParticipant w docIdS (.str p.email) (.str p.name)
        (if sendMode == "embedded_sms" then p.tel else .null) (sendMode == "embedded_sms")
        (if sendMode == "simple_auth" then p.recipient_id else .null) with ⟨ra, wa, eva⟩
      have hano := addParticipant_addCallIdxs w docIdS (.str p.email) (.str p.name)
        (if sendMode == "embedded_sms" then p.tel else .null) (sendMode == "embedded_sms")
        (if sendMode == "simple_auth" then p.recipient_id else .null)
      rw [ha] at hano
      simp only at hano
      right
      cases ra with
      | error e =>
        simp only [ha]
        show addCallIdxs (Event.addParticipantCall i :: eva) = [i]
        rw [addCallIdxs_cons_call, hano]
      | ok presp =>
        simp only [ha]
        split
        · show addCallIdxs (Event.addParticipantCall i :: eva) = [i]
          rw [addCallIdxs_cons_call, hano]
        · rcases hg : getDocument wa docIdS with ⟨rg, wg, evg⟩
          have hgno := getDocument_addCallIdxs wa docIdS
          rw [hg] at hgno
          simp only at hgno
          cases rg with
          | error e =>
            simp only
            show addCallIdxs ((Event.addParticipantCall i :: eva) ++ evg) = [i]
            rw [addCallIdxs_append, addCallIdxs_cons_call, hano, hgno]
            rfl
          | ok detail =>
            simp only
            split <;>
              [split; skip] <;>
            · show addCallIdxs ((Event.addParticipantCall i :: eva) ++ evg) = [i]
              rw [addCallIdxs_append, addCallIdxs_cons_call, hano, hgno]
              rfl
    · left
      simp [addCallIdxs]

theorem viewParticipantLoop_calls (docIdS sendMode : String)
    (existing : List (JVal × JVal)) :
    ∀ (ps : List LocalParticipant) (w : World) (i0 : Nat),
      ∀ k ∈ addCallIdxs (viewParticipantLoop w docIdS sendMode existing i0 ps).2.2.1,
        ∃ j p, ps.get? j = some p ∧ k = i0 + j ∧
          truthy p.cloudsign_participant_id = false := by
  intro ps
  induction ps with
  | nil =>
    intro w i0 k hk
    simp [viewParticipantLoop, addCallIdxs] at hk
  | cons p rest ih =>
    intro w i0 k hk
    rcases hb : viewParticipantBody w docIdS sendMode existing i0 p
      with ⟨rb, w1, evb, p', added⟩
    have hbc := viewParticipantBody_calls w docIdS sendMode existing i0 p
    rw [hb] at hbc
    simp only at hbc
    have hskip : truthy p.cloudsign_participant_id = true → evb = [] := by
      intro ht
      have hs := viewParticipantBody_skip w docIdS sendMode existing i0 p ht
      rw [hb] at hs
      simp only [Prod.mk.injEq] at hs
      exact hs.2.2.1
    have headCase : k ∈ addCallIdxs evb →
        ∃ j q, (p :: rest).get? j = some q ∧ k = i0 + j ∧
          truthy q.cloudsign_participant_id = false := by
      intro hkb
      rcases hbc with h | h
      · rw [h] at hkb
        simp at hkb
      · rw [h] at hkb
        simp at hkb
        subst hkb
        refine ⟨0, p, rfl, by omega, ?_⟩
        by_cases htr : truthy p.cloudsign_participant_id
        · rw [hskip htr] at h
          simp [addCallIdxs] at h
        · simpa using htr
    cases rb with
    | error e =>
      simp only [viewParticipantLoop, hb] at hk
      exact headCase hk
    | ok u =>
      simp only [viewParticipantLoop, hb] at hk
      rcases hrec : viewParticipantLoop w1 docIdS sendMode existing (i0 + 1) rest
        with ⟨rr, w2, evr, psr, n⟩
      rw [hrec] at hk
      simp only at hk
      rw [addCallIdxs_append] at hk
      rcases List.mem_append.1 hk with hk | hk
      · exact headCase hk
      · have := ih w1 (i0 + 1) k
        rw [hrec] at this
        obtain ⟨j, q, hq, hkeq, hqf⟩ := this hk
        exact ⟨j + 1, q, by simpa using hq, by omega, hqf⟩

theorem viewParticipantLoop_preserves (docIdS sendMode : String)
    (existing : List (JVal × JVal)) :
    ∀ (ps : List LocalParticipant) (w : World) (i0 j : Nat) (p : LocalParticipant),
      ps.get? j = some p → truthy p.cloudsign_participant_id = true →
      (viewParticipantLoop w docIdS sendMode existing i0 ps).2.2.2.1.get? j = some p := by
  intro ps
  induction ps with
  | nil =>
    intro w i0 j p hj
    simp at hj
  | cons q rest ih =>
    intro w i0 j p hj htr
    cases j with
    | zero =>
      simp only [List.get?_cons_zero] at hj
      obtain rfl : q = p := by injection hj
      have hb := viewParticipantBody_skip w docIdS sendMode existing i0 q htr
      simp only [viewParticipantLoop, hb]
      rcases hrec : viewParticipantLoop w docIdS sendMode existing (i0 + 1) rest
        with ⟨rr, w2, evr, psr, n⟩
      simp only [hrec]
      rfl
    | succ j' =>
      simp only [List.get?_cons_succ] at hj
      rcases hb : viewParticipantBody w docIdS sendMode existing i0 q
        with ⟨rb, w1, evb, q', added⟩
      cases rb with
      | error e =>
        simp only [viewParticipantLoop, hb]
        simpa using hj
      | ok u =>
        simp only [viewParticipantLoop, hb]
        rcases hrec : viewParticipantLoop w1 docIdS sendMode existing (i0 + 1) rest
          with ⟨rr, w2, evr, psr, n⟩
        simp only [hrec]
        have := ih w1 (i0 + 1) j' p hj htr
        rw [hrec] at this
        simpa using this

/-- C4: in the manage view's participant loop, a participant that already
carries a CloudSign participant id triggers no `add_participant` call and is
left unchanged; re-running the loop on the resulting participant list (under
any world and any existing-participants map) again triggers no
`add_participant` call for that participant. -/
theorem participant_skip_idempotent (w : World) (docIdS sendMode : String)
    (existing : List (JVal × JVal)) (ps : List LocalParticipant) (j : Nat)
    (p : LocalParticipant)
    (hj : ps.get? j = some p)
    (htr : truthy p.cloudsign_participant_id = true) :
    j ∉ addCallIdxs (viewParticipantLoop w docIdS sendMode existing 0 ps).2.2.1 ∧
    (viewParticipantLoop w docIdS sendMode existing 0 ps).2.2.2.1.get? j = some p ∧
    ∀ (w' : World) (existing' : List (JVal × JVal)),
      j ∉ addCallIdxs (viewParticipantLoop w' docIdS sendMode existing' 0
        (viewParticipantLoop w docIdS sendMode existing 0 ps).2.2.2.1).2.2.1 := by
  have noCall : ∀ (w' : World) (ex' : List (JVal × JVal)) (qs : List LocalParticipant),
      qs.get? j = some p →
      j ∉ addCallIdxs (viewParticipantLoop w' docIdS sendMode ex' 0 qs).2.2.1 := by
    intro w' ex' qs hq hmem
    obtain ⟨j', q, hq', hkeq, hqf⟩ :=
      viewParticipantLoop_calls docIdS sendMode ex' qs w' 0 j hmem
    have hj' : j' = j := by omega
    subst hj'
    rw [hq] at hq'
    obtain rfl : p = q := by injection hq'
    rw [htr] at hqf
    exact absurd hqf (by simp)
  refine ⟨noCall w existing ps hj,
    viewParticipantLoop_preserves docIdS sendMode existing ps w 0 j p hj htr, ?_⟩
  intro w' ex'
  exact noCall w' ex' _
    (viewParticipantLoop_preserves docIdS sendMode existing ps w 0 j p hj htr)

def c4World : World :=
  { st := ⟨.str "tok", some 100⟩, now := 0,
    tokenOracle := fun _ => .netErr, tokenCalls := 0,
    reqOracle := fun _ => .netErr, reqCalls := 0 }

def c4Participant : LocalParticipant :=
  ⟨"Alice", "a@example.com", .null, .null, .str "cs1"⟩

theorem participant_skip_idempotent_witness :
    0 ∉ addCallIdxs (viewParticipantLoop c4World "d1" "normal" [] 0 [c4Participant]).2.2.1 ∧
    (viewParticipantLoop c4World "d1" "normal" [] 0 [c4Participant]).2.2.2.1.get? 0 =
      some c4Participant := by
  have h := participant_skip_idempotent c4World "d1" "normal" [] [c4Participant] 0
    c4Participant rfl rfl
  exact ⟨h.1, h.2.1⟩

end CloudSign
